import Mathlib

/-!
Shallow embedding of `generate_dev_files.py`: a content catalog
(`LANGUAGE_CONTENT`) mapping language labels to topic lists and literal
Markdown bodies, a fallback template generator, and a file populator
(`create_files_for_directory`) that writes `developer.language.topic.md`
files.  Randomness in the populator is modelled by explicit parameters
(`num_files`, the sampled developers and the per-developer picks)
constrained by `ValidRun`, which states exactly the contracts of
`random.randint`, `random.sample` and `random.choice` as used in the code.
-/

set_option maxRecDepth 1000000

/-- `startsWithL hay pat` is true when `pat` is a prefix of `hay` (char lists). -/
def startsWithL : List Char → List Char → Bool
  | _, [] => true
  | [], _ :: _ => false
  | c :: cs, p :: ps => c == p && startsWithL cs ps

/-- `containsSub hay pat` is true when `pat` occurs contiguously inside `hay`. -/
def containsSub : List Char → List Char → Bool
  | [], pat => pat.isEmpty
  | c :: rest, pat => startsWithL (c :: rest) pat || containsSub rest pat

/-- `StrContains s sub`: the string `sub` occurs contiguously inside `s`. -/
@[reducible] def StrContains (s sub : String) : Prop := containsSub s.data sub.data = true

/-- Split a character list on a separator character (the separator is dropped;
`n` separators yield `n+1` pieces, as Python `str.split(sep)` does). -/
def splitOnChar (sep : Char) : List Char → List (List Char)
  | [] => [[]]
  | c :: rest =>
    let r := splitOnChar sep rest
    if c = sep then [] :: r else (c :: r.headI) :: r.tail

/-- One step of Python `str.title()` on ASCII text: each character is
uppercased when the previous character was not a letter, lowercased
otherwise; `prevAlpha` records whether the previous character was a letter. -/
def pyTitleAux : List Char → Bool → List Char
  | [], _ => []
  | c :: rest, prevAlpha =>
    (if prevAlpha then c.toLower else c.toUpper) :: pyTitleAux rest c.isAlpha

/-- Python `str.title()` restricted to ASCII text (all catalog labels are ASCII). -/
def pyTitle (s : String) : String := ⟨pyTitleAux s.data false⟩

/-- Python `topic.replace('-', ' ')`: a single-character replacement, hence a map. -/
def replaceDash (s : String) : String := ⟨s.data.map fun c => if c = '-' then ' ' else c⟩

/-- The placeholder marker that distinguishes generated fallback documents
from catalogued ones (it appears in the trailing note of the fallback
template and in no catalogued body). -/
def fallbackMarker : String := "template document"
/-- Literal catalogued body for ('golang', 'code-styling') from LANGUAGE_CONTENT in generate_dev_files.py. -/
def body_golang_code_styling : String := "# Golang Code Styling Guidelines\n\n## General Principles\n- Use \x60gofmt\x60 to format your code automatically\n- Follow the official Go Code Review Comments guidelines\n- Use camelCase for exported functions and PascalCase for types\n\n## Naming Conventions\n- Package names should be short, lowercase, single words\n- Interface names should end with \x27er\x27 when possible\n- Use descriptive names for variables with longer scope\n\n## Function Structure\n- Keep functions small and focused on a single responsibility\n- Group related functionality into packages\n- Use early returns to reduce nesting\n\n## Comments\n- Comment exported functions, types, and variables\n- Use complete sentences in comments\n- Avoid obvious comments\n\n## Error Handling\n- Always handle errors explicitly\n- Don\x27t ignore errors with \x60_\x60\n- Use custom error types when appropriate\n"

/-- Literal catalogued body for ('golang', 'error-handling') from LANGUAGE_CONTENT in generate_dev_files.py. -/
def body_golang_error_handling : String := "# Golang Error Handling Best Practices\n\n## Core Principles\n- Errors are values, not exceptions\n- Handle errors immediately where they occur\n- Don\x27t ignore errors\n\n## Error Creation\n\x60\x60\x60go\n// Use errors.New for simple errors\nerr := errors.New(\"something went wrong\")\n\n// Use fmt.Errorf for formatted errors\nerr := fmt.Errorf(\"failed to process %s: %w\", filename, originalErr)\n\x60\x60\x60\n\n## Error Checking\n\x60\x60\x60go\nif err != nil \x7b\n    return fmt.Errorf(\"operation failed: %w\", err)\n\x7d\n\x60\x60\x60\n\n## Custom Error Types\n- Implement the error interface for domain-specific errors\n- Use error wrapping to preserve context\n- Consider sentinel errors for expected error conditions\n\n## Testing Errors\n- Test both success and failure paths\n- Verify error messages and types\n- Use testify/assert for error testing\n"

/-- Literal catalogued body for ('golang', 'testing') from LANGUAGE_CONTENT in generate_dev_files.py. -/
def body_golang_testing : String := "# Golang Testing Guidelines\n\n## Test Structure\n- Follow the AAA pattern: Arrange, Act, Assert\n- Use table-driven tests for multiple scenarios\n- Keep tests simple and focused\n\n## Test Naming\n- Use descriptive test function names\n- Format: \x60TestFunctionName_Scenario_ExpectedResult\x60\n- Example: \x60TestCalculateTotal_WithValidItems_ReturnsCorrectSum\x60\n\n## Test Organization\n\x60\x60\x60go\nfunc TestCalculator(t *testing.T) \x7b\n    tests := []struct \x7b\n        name     string\n        input    int\n        expected int\n    \x7d\x7b\n        \x7b\"positive number\", 5, 5\x7d,\n        \x7b\"zero\", 0, 0\x7d,\n        \x7b\"negative number\", -3, -3\x7d,\n    \x7d\n    \n    for _, tt := range tests \x7b\n        t.Run(tt.name, func(t *testing.T) \x7b\n            result := Calculate(tt.input)\n            assert.Equal(t, tt.expected, result)\n        \x7d)\n    \x7d\n\x7d\n\x60\x60\x60\n\n## Best Practices\n- Use testify/require for assertions that should stop the test\n- Use testify/assert for non-critical assertions\n- Mock external dependencies\n- Test edge cases and error conditions\n"

/-- Literal catalogued body for ('golang', 'concurrency') from LANGUAGE_CONTENT in generate_dev_files.py. -/
def body_golang_concurrency : String := "# Golang Concurrency Patterns\n\n## Goroutines\n- Use goroutines for concurrent operations\n- Always have a way to stop goroutines\n- Don\x27t create goroutines without bounds\n\n## Channels\n- Use channels to communicate between goroutines\n- Close channels when done sending\n- Use buffered channels to prevent blocking\n\n## Common Patterns\n\n### Worker Pool\n\x60\x60\x60go\nfunc workerPool(jobs <-chan Job, results chan<- Result) \x7b\n    for job := range jobs \x7b\n        results <- processJob(job)\n    \x7d\n\x7d\n\x60\x60\x60\n\n### Fan-out/Fan-in\n- Fan-out: distribute work across multiple goroutines\n- Fan-in: collect results from multiple goroutines\n\n### Pipeline\n- Chain operations using channels\n- Each stage processes data and passes to next stage\n\n## Synchronization\n- Use sync.Mutex for protecting shared state\n- Use sync.WaitGroup to wait for goroutines\n- Prefer channels over shared memory when possible\n"

/-- Literal catalogued body for ('golang', 'performance') from LANGUAGE_CONTENT in generate_dev_files.py. -/
def body_golang_performance : String := "# Golang Performance Optimization\n\n## Profiling\n- Use \x60go tool pprof\x60 for performance analysis\n- Profile CPU, memory, and goroutine usage\n- Use benchmarks to measure performance\n\n## Memory Management\n- Avoid unnecessary allocations in hot paths\n- Reuse slices and maps when possible\n- Use object pools for expensive objects\n\n## Optimization Techniques\n- Use string.Builder for string concatenation\n- Prefer slices over arrays for flexibility\n- Use interfaces wisely - they have overhead\n\n## Benchmarking\n\x60\x60\x60go\nfunc BenchmarkFunction(b *testing.B) \x7b\n    for i := 0; i < b.N; i++ \x7b\n        FunctionToTest()\n    \x7d\n\x7d\n\x60\x60\x60\n\n## Common Pitfalls\n- Premature optimization\n- Not measuring before optimizing\n- Micro-optimizations at expense of readability\n- Ignoring garbage collection impact\n"

/-- Literal catalogued body for ('python', 'code-styling') from LANGUAGE_CONTENT in generate_dev_files.py. -/
def body_python_code_styling : String := "# Python Code Styling Guidelines\n\n## PEP 8 Compliance\n- Use 4 spaces for indentation\n- Line length maximum of 79 characters\n- Use snake_case for variables and functions\n- Use PascalCase for classes\n\n## Import Organization\n\x60\x60\x60python\n# Standard library imports\nimport os\nimport sys\n\n# Third-party imports\nimport requests\nimport numpy as np\n\n# Local imports\nfrom myapp import models\nfrom . import utils\n\x60\x60\x60\n\n## Function and Class Design\n- Keep functions small and focused\n- Use type hints for better code documentation\n- Follow the single responsibility principle\n\n## Naming Conventions\n- Variables: \x60user_name\x60, \x60total_count\x60\n- Functions: \x60calculate_total()\x60, \x60send_email()\x60\n- Classes: \x60UserManager\x60, \x60EmailService\x60\n- Constants: \x60MAX_RETRIES\x60, \x60DEFAULT_TIMEOUT\x60\n\n## Documentation\n- Use docstrings for modules, classes, and functions\n- Follow Google or NumPy docstring style\n- Include examples in docstrings when helpful\n"

/-- Literal catalogued body for ('python', 'testing') from LANGUAGE_CONTENT in generate_dev_files.py. -/
def body_python_testing : String := "# Python Testing Best Practices\n\n## Test Framework\n- Use pytest as the primary testing framework\n- Organize tests in separate test files/directories\n- Use fixtures for setup and teardown\n\n## Test Structure\n\x60\x60\x60python\ndef test_function_name_scenario_expected_result():\n    # Arrange\n    input_data = \x7b\"key\": \"value\"\x7d\n    \n    # Act\n    result = function_under_test(input_data)\n    \n    # Assert\n    assert result == expected_value\n\x60\x60\x60\n\n## Test Organization\n- Group related tests in classes\n- Use parametrize for testing multiple scenarios\n- Mock external dependencies\n\n## Coverage and Quality\n- Aim for high test coverage (>90%)\n- Test edge cases and error conditions\n- Use property-based testing with hypothesis\n\n## Fixtures and Mocking\n\x60\x60\x60python\n@pytest.fixture\ndef sample_data():\n    return \x7b\"id\": 1, \"name\": \"test\"\x7d\n\n@mock.patch(\x27module.external_service\x27)\ndef test_with_mock(mock_service):\n    mock_service.return_value = \"mocked_response\"\n    # Test code here\n\x60\x60\x60\n"

/-- Literal catalogued body for ('python', 'packaging') from LANGUAGE_CONTENT in generate_dev_files.py. -/
def body_python_packaging : String := "# Python Packaging Guidelines\n\n## Project Structure\n\x60\x60\x60\nproject/\n\u251c\u2500\u2500 src/\n\u2502   \u2514\u2500\u2500 mypackage/\n\u2502       \u251c\u2500\u2500 __init__.py\n\u2502       \u2514\u2500\u2500 module.py\n\u251c\u2500\u2500 tests/\n\u251c\u2500\u2500 pyproject.toml\n\u251c\u2500\u2500 README.md\n\u2514\u2500\u2500 requirements.txt\n\x60\x60\x60\n\n## Dependency Management\n- Use virtual environments for isolation\n- Pin dependency versions in requirements.txt\n- Use requirements-dev.txt for development dependencies\n\n## Setup Configuration\n\x60\x60\x60toml\n[build-system]\nrequires = [\"setuptools>=45\", \"wheel\"]\nbuild-backend = \"setuptools.build_meta\"\n\n[project]\nname = \"mypackage\"\nversion = \"0.1.0\"\ndescription = \"A sample package\"\ndependencies = [\n    \"requests>=2.25.0\",\n    \"click>=7.0\",\n]\n\x60\x60\x60\n\n## Distribution\n- Use semantic versioning (MAJOR.MINOR.PATCH)\n- Include comprehensive README and CHANGELOG\n- Use GitHub Actions for CI/CD\n- Publish to PyPI using twine\n"

/-- Literal catalogued body for ('python', 'performance') from LANGUAGE_CONTENT in generate_dev_files.py. -/
def body_python_performance : String := "# Python Performance Optimization\n\n## Profiling Tools\n- Use cProfile for code profiling\n- Use memory_profiler for memory analysis\n- Use line_profiler for line-by-line analysis\n\n## Common Optimizations\n- Use list comprehensions over loops when appropriate\n- Prefer generators for large datasets\n- Use built-in functions (they\x27re optimized in C)\n\n## Data Structures\n- Choose appropriate data structures (set vs list)\n- Use collections module (deque, Counter, defaultdict)\n- Consider numpy for numerical computations\n\n## Algorithm Optimization\n\x60\x60\x60python\n# Bad: O(n\u00b2)\nfor i in list1:\n    if i in list2:  # Linear search each time\n        result.append(i)\n\n# Good: O(n)\nset2 = set(list2)  # Convert to set once\nfor i in list1:\n    if i in set2:  # Constant time lookup\n        result.append(i)\n\x60\x60\x60\n\n## Memory Management\n- Use __slots__ for classes with many instances\n- Delete large objects when done\n- Use weak references to break circular references\n"

/-- Literal catalogued body for ('python', 'async') from LANGUAGE_CONTENT in generate_dev_files.py. -/
def body_python_async : String := "# Python Asynchronous Programming\n\n## asyncio Basics\n- Use async/await for asynchronous operations\n- Run async functions with asyncio.run()\n- Use async context managers and iterators\n\n## Common Patterns\n\x60\x60\x60python\nimport asyncio\nimport aiohttp\n\nasync def fetch_data(url):\n    async with aiohttp.ClientSession() as session:\n        async with session.get(url) as response:\n            return await response.text()\n\nasync def main():\n    urls = [\"http://example1.com\", \"http://example2.com\"]\n    tasks = [fetch_data(url) for url in urls]\n    results = await asyncio.gather(*tasks)\n    return results\n\x60\x60\x60\n\n## Best Practices\n- Don\x27t mix blocking and non-blocking code\n- Use asyncio.gather() for concurrent operations\n- Handle exceptions properly in async code\n- Use async libraries (aiohttp, asyncpg) for I/O\n\n## Performance Considerations\n- Async is best for I/O-bound operations\n- Use thread pools for CPU-bound work\n- Monitor event loop performance\n- Avoid blocking operations in async functions\n"

/-- Literal catalogued body for ('javascript', 'code-styling') from LANGUAGE_CONTENT in generate_dev_files.py. -/
def body_javascript_code_styling : String := "# JavaScript Code Styling Guidelines\n\n## ESLint and Prettier\n- Use ESLint for code linting\n- Use Prettier for code formatting\n- Configure both in your project\n\n## Variable Declarations\n- Use \x60const\x60 by default\n- Use \x60let\x60 when reassignment is needed\n- Avoid \x60var\x60 completely\n\n## Function Declarations\n\x60\x60\x60javascript\n// Prefer arrow functions for short functions\nconst add = (a, b) => a + b;\n\n// Use function declarations for named functions\nfunction calculateTotal(items) \x7b\n    return items.reduce((sum, item) => sum + item.price, 0);\n\x7d\n\x60\x60\x60\n\n## Object and Array Destructuring\n\x60\x60\x60javascript\n// Object destructuring\nconst \x7b name, age \x7d = user;\n\n// Array destructuring\nconst [first, second] = items;\n\n// Function parameters\nfunction greet(\x7b name, age = 0 \x7d) \x7b\n    return \x60Hello $\x7bname\x7d, you are $\x7bage\x7d years old\x60;\n\x7d\n\x60\x60\x60\n\n## Modern Syntax\n- Use template literals for string interpolation\n- Use optional chaining (?.) and nullish coalescing (??)\n- Prefer async/await over Promise chains\n"

/-- Literal catalogued body for ('javascript', 'testing') from LANGUAGE_CONTENT in generate_dev_files.py. -/
def body_javascript_testing : String := "# JavaScript Testing Best Practices\n\n## Testing Framework\n- Use Jest for unit and integration testing\n- Use Testing Library for React component testing\n- Use Cypress or Playwright for E2E testing\n\n## Test Structure\n\x60\x60\x60javascript\ndescribe(\x27Calculator\x27, () => \x7b\n    test(\x27should add two numbers correctly\x27, () => \x7b\n        // Arrange\n        const a = 5;\n        const b = 3;\n        \n        // Act\n        const result = add(a, b);\n        \n        // Assert\n        expect(result).toBe(8);\n    \x7d);\n\x7d);\n\x60\x60\x60\n\n## Mocking and Spies\n\x60\x60\x60javascript\n// Mock functions\nconst mockFn = jest.fn();\nmockFn.mockReturnValue(\x27mocked value\x27);\n\n// Spy on methods\nconst spy = jest.spyOn(object, \x27method\x27);\nexpect(spy).toHaveBeenCalledWith(expectedArgs);\n\x60\x60\x60\n\n## Async Testing\n\x60\x60\x60javascript\ntest(\x27async function test\x27, async () => \x7b\n    const result = await fetchData();\n    expect(result).toBeDefined();\n\x7d);\n\ntest(\x27promise rejection\x27, async () => \x7b\n    await expect(failingFunction()).rejects.toThrow(\x27Error message\x27);\n\x7d);\n\x60\x60\x60\n\n## Best Practices\n- Write tests before or alongside code (TDD)\n- Test behavior, not implementation\n- Keep tests simple and focused\n- Use descriptive test names\n"

/-- Literal catalogued body for ('react', 'components') from LANGUAGE_CONTENT in generate_dev_files.py. -/
def body_react_components : String := "# React Components Best Practices\n\n## Functional Components\n- Always use functional components over class components\n- Keep components small and focused\n- Use TypeScript for better type safety\n\n## Component Structure\n\x60\x60\x60jsx\nimport React from \x27react\x27;\nimport PropTypes from \x27prop-types\x27;\n\nconst UserCard = (\x7b user, onEdit, className = \x27\x27 \x7d) => \x7b\n    return (\n        <div className=\x7b\x60user-card $\x7bclassName\x7d\x60\x7d>\n            <h3>\x7buser.name\x7d</h3>\n            <p>\x7buser.email\x7d</p>\n            <button onClick=\x7b() => onEdit(user.id)\x7d>\n                Edit User\n            </button>\n        </div>\n    );\n\x7d;\n\nUserCard.propTypes = \x7b\n    user: PropTypes.shape(\x7b\n        id: PropTypes.number.isRequired,\n        name: PropTypes.string.isRequired,\n        email: PropTypes.string.isRequired,\n    \x7d).isRequired,\n    onEdit: PropTypes.func.isRequired,\n    className: PropTypes.string,\n\x7d;\n\nexport default UserCard;\n\x60\x60\x60\n\n## Component Organization\n- One component per file\n- Use index.js files for cleaner imports\n- Group related components in folders\n- Separate presentation and container components\n"

/-- Literal catalogued body for ('react', 'hooks') from LANGUAGE_CONTENT in generate_dev_files.py. -/
def body_react_hooks : String := "# React Hooks Guidelines\n\n## Built-in Hooks\n\x60\x60\x60jsx\nimport React, \x7b useState, useEffect, useMemo, useCallback \x7d from \x27react\x27;\n\nconst UserList = (\x7b users, onUserSelect \x7d) => \x7b\n    const [filter, setFilter] = useState(\x27\x27);\n    const [loading, setLoading] = useState(false);\n    \n    // Memoize expensive calculations\n    const filteredUsers = useMemo(() => \x7b\n        return users.filter(user => \n            user.name.toLowerCase().includes(filter.toLowerCase())\n        );\n    \x7d, [users, filter]);\n    \n    // Memoize callback functions\n    const handleUserClick = useCallback((user) => \x7b\n        onUserSelect(user);\n    \x7d, [onUserSelect]);\n    \n    useEffect(() => \x7b\n        // Side effects here\n        setLoading(true);\n        // Cleanup function\n        return () => \x7b\n            setLoading(false);\n        \x7d;\n    \x7d, []);\n    \n    return (\n        <div>\n            <input \n                value=\x7bfilter\x7d \n                onChange=\x7b(e) => setFilter(e.target.value)\x7d \n            />\n            \x7bfilteredUsers.map(user => (\n                <UserCard \n                    key=\x7buser.id\x7d \n                    user=\x7buser\x7d \n                    onClick=\x7bhandleUserClick\x7d\n                />\n            ))\x7d\n        </div>\n    );\n\x7d;\n\x60\x60\x60\n\n## Custom Hooks\n- Extract reusable logic into custom hooks\n- Start custom hook names with \x27use\x27\n- Return objects for multiple values\n"

/-- A language entry of LANGUAGE_CONTENT: its ordered topic list and its topic-to-body content mapping (Python dict embedded as an association list in declaration order). -/
structure LangSpec where
  topics : List String
  content : List (String × String)
deriving DecidableEq

/-- The 'golang' entry of LANGUAGE_CONTENT. -/
def golangSpec : LangSpec := ⟨["code-styling", "error-handling", "testing", "concurrency", "performance"], [("code-styling", body_golang_code_styling), ("error-handling", body_golang_error_handling), ("testing", body_golang_testing), ("concurrency", body_golang_concurrency), ("performance", body_golang_performance)]⟩

/-- The 'python' entry of LANGUAGE_CONTENT. -/
def pythonSpec : LangSpec := ⟨["code-styling", "testing", "packaging", "performance", "async"], [("code-styling", body_python_code_styling), ("testing", body_python_testing), ("packaging", body_python_packaging), ("performance", body_python_performance), ("async", body_python_async)]⟩

/-- The 'javascript' entry of LANGUAGE_CONTENT. -/
def javascriptSpec : LangSpec := ⟨["code-styling", "testing", "async", "modules", "performance"], [("code-styling", body_javascript_code_styling), ("testing", body_javascript_testing)]⟩

/-- The 'react' entry of LANGUAGE_CONTENT. -/
def reactSpec : LangSpec := ⟨["components", "hooks", "state-management", "performance", "testing"], [("components", body_react_components), ("hooks", body_react_hooks)]⟩

/-- The DEVELOPERS constant: the pool of developer names. -/
def DEVELOPERS : List String := ["ghonDou", "sarahLee", "alexChen", "mariaSilva", "johnSmith", "linaWang", "davidJones", "annaKowalski", "rajPatel", "emmaWhite"]

/-- The LANGUAGE_CONTENT constant: language label to LangSpec, in declaration order. -/
def LANGUAGE_CONTENT : List (String × LangSpec) := [("golang", golangSpec), ("python", pythonSpec), ("javascript", javascriptSpec), ("react", reactSpec)]

/-- Literal segment of the fallback f-string in get_content_for_topic. -/
def fbChunk0 : String := "# "

/-- Literal segment of the fallback f-string in get_content_for_topic. -/
def fbChunk1 : String := " "

/-- Literal segment of the fallback f-string in get_content_for_topic. -/
def fbChunk2 : String := " Guidelines\n\n## Overview\nThis document contains best practices and guidelines for "

/-- Literal segment of the fallback f-string in get_content_for_topic. -/
def fbChunk3 : String := " in "

/-- Literal segment of the fallback f-string in get_content_for_topic. -/
def fbChunk4 : String := ".\n\n## Key Principles\n1. Write clean, readable code\n2. Follow established conventions\n3. Test your code thoroughly\n4. Document important decisions\n5. Keep learning and improving\n\n## Best Practices\n- Follow the community standards for "

/-- Literal segment of the fallback f-string in get_content_for_topic. -/
def fbChunk5 : String := "\n- Use appropriate tools and frameworks\n- Write comprehensive tests\n- Document your code properly\n- Review code regularly\n\n## Resources\n- Official "

/-- Literal segment of the fallback f-string in get_content_for_topic. -/
def fbChunk6 : String := " documentation\n- Community style guides\n- Popular frameworks and libraries\n- Testing tools and practices\n\n## Common Pitfalls\n- Not following established patterns\n- Ignoring performance implications\n- Insufficient testing\n- Poor error handling\n- Lack of documentation\n\n---\n*This is a template document. Please customize with specific "

/-- Literal segment of the fallback f-string in get_content_for_topic. -/
def fbChunk7 : String := " "

/-- Literal segment of the fallback f-string in get_content_for_topic. -/
def fbChunk8 : String := " guidelines.*\n"

/-- The fallback template of get_content_for_topic: the f-string returned when the (language, topic) pair is not catalogued, with Python str.title() modelled by pyTitle and str.replace of the dash modelled by replaceDash. -/
def fallbackContent (language topic : String) : String :=
  fbChunk0 ++ ((pyTitle language) ++ (fbChunk1 ++ ((pyTitle (replaceDash topic)) ++ (fbChunk2 ++ ((replaceDash topic) ++ (fbChunk3 ++ ((pyTitle language) ++ (fbChunk4 ++ (language ++ (fbChunk5 ++ (language ++ (fbChunk6 ++ (language ++ (fbChunk7 ++ (topic ++ (fbChunk8))))))))))))))))
/-- Catalogued body lookup: `some body` exactly when Python's
`language in LANGUAGE_CONTENT and topic in LANGUAGE_CONTENT[language]["content"]`
holds, in which case `body = LANGUAGE_CONTENT[language]["content"][topic]`. -/
def lookupBody (language topic : String) : Option String :=
  (List.lookup language LANGUAGE_CONTENT).bind fun spec => List.lookup topic spec.content

/-- `get_content_for_topic` from generate_dev_files.py: the catalogued body
when the pair is catalogued, otherwise the fallback template. -/
def get_content_for_topic (language topic : String) : String :=
  match List.lookup language LANGUAGE_CONTENT with
  | some spec =>
    match List.lookup topic spec.content with
    | some body => body
    | none => fallbackContent language topic
  | none => fallbackContent language topic

/-- The error raised by a catalog lookup of an absent language label
(Python raises `KeyError` on `LANGUAGE_CONTENT[language]`). -/
inductive CatalogError where
  | UnknownLanguage
deriving DecidableEq

/-- `listTopics`: the declared ordered topic sequence of a language, embedding
the subscript `LANGUAGE_CONTENT[language]["topics"]` (line 651); an absent
label raises (is an `UnknownLanguage` error), it is not swallowed. -/
def listTopics (language : String) : Except CatalogError (List String) :=
  match List.lookup language LANGUAGE_CONTENT with
  | some spec => Except.ok spec.topics
  | none => Except.error CatalogError.UnknownLanguage

/-- `list(LANGUAGE_CONTENT.keys())`, in declaration order. -/
def languageKeys : List String := LANGUAGE_CONTENT.map Prod.fst

/-- The declared topic list of a language (empty for an absent label; the
populator only calls this on labels drawn from `languageKeys`). -/
def topicsOf (language : String) : List String :=
  match List.lookup language LANGUAGE_CONTENT with
  | some spec => spec.topics
  | none => []

/-- One file written by the populator: the filename
`f"{developer}.{language}.{topic}.md"` and its content from
`get_content_for_topic`. -/
def makeFile (developer language topic : String) : String × String :=
  (developer ++ "." ++ language ++ "." ++ topic ++ ".md",
   get_content_for_topic language topic)

/-- `create_files_for_directory` with its random draws made explicit: given
the sampled developer list and, per developer, the picked (language, topic)
pair, it writes one file per selected developer and returns them in order
(the returned list carries both the filename, as `files_created` does, and
the written content). -/
def create_files_for_directory (selected_developers : List String)
    (picks : List (String × String)) : List (String × String) :=
  (selected_developers.zip picks).map fun p => makeFile p.1 p.2.1 p.2.2

/-- The contracts of the random draws in `create_files_for_directory`:
`num_files = random.randint(3, 6)` lies in `[3, 6]`;
`selected_developers = random.sample(DEVELOPERS, min(num_files, len(DEVELOPERS)))`
has that exact length, is duplicate-free and draws from `DEVELOPERS`;
and each developer's `random.choice` picks draw a catalog language and one
of that language's declared topics. -/
@[reducible] def ValidRun (num_files : Nat) (selected_developers : List String)
    (picks : List (String × String)) : Prop :=
  3 ≤ num_files ∧ num_files ≤ 6 ∧
  selected_developers.length = min num_files DEVELOPERS.length ∧
  selected_developers.Nodup ∧
  (∀ d ∈ selected_developers, d ∈ DEVELOPERS) ∧
  picks.length = selected_developers.length ∧
  (∀ p ∈ picks, p.1 ∈ languageKeys ∧ p.2 ∈ topicsOf p.1)

/-- A concrete sampled developer list used to exercise the populator theorems. -/
def witnessDevs : List String := ["ghonDou", "sarahLee", "alexChen"]

/-- Concrete per-developer (language, topic) picks used to exercise the
populator theorems. -/
def witnessPicks : List (String × String) :=
  [("golang", "testing"), ("python", "async"), ("react", "hooks")]
theorem containsSub_nil_pat (l : List Char) : containsSub l [] = true := by
  cases l <;> simp [containsSub, startsWithL]

theorem startsWithL_self_append (pat b : List Char) : startsWithL (pat ++ b) pat = true := by
  induction pat with
  | nil => simp [startsWithL]
  | cons p ps ih => simp [startsWithL, ih]

theorem startsWithL_append_right (l pat a : List Char) (h : startsWithL l pat = true) :
    startsWithL (l ++ a) pat = true := by
  induction pat generalizing l with
  | nil => simp [startsWithL]
  | cons p ps ih =>
    cases l with
    | nil => simp [startsWithL] at h
    | cons c cs =>
      simp only [startsWithL, Bool.and_eq_true] at h
      simp only [List.cons_append, startsWithL, Bool.and_eq_true]
      exact ⟨h.1, ih cs h.2⟩

theorem containsSub_self_append (pat b : List Char) : containsSub (pat ++ b) pat = true := by
  cases pat with
  | nil => exact containsSub_nil_pat b
  | cons p ps =>
    simp only [List.cons_append, containsSub, Bool.or_eq_true]
    exact Or.inl (startsWithL_self_append (p :: ps) b)

theorem containsSub_append_left (a l pat : List Char) (h : containsSub l pat = true) :
    containsSub (a ++ l) pat = true := by
  induction a with
  | nil => exact h
  | cons c a ih =>
    simp only [List.cons_append, containsSub, Bool.or_eq_true]
    exact Or.inr ih

theorem containsSub_append_right (l a pat : List Char) (h : containsSub l pat = true) :
    containsSub (l ++ a) pat = true := by
  induction l with
  | nil =>
    simp only [containsSub, List.isEmpty_iff] at h
    subst h
    exact containsSub_nil_pat a
  | cons c rest ih =>
    simp only [containsSub, Bool.or_eq_true] at h
    simp only [List.cons_append, containsSub, Bool.or_eq_true]
    rcases h with h | h
    · exact Or.inl (startsWithL_append_right _ _ _ h)
    · exact Or.inr (ih h)

theorem strContains_here (s a : String) : StrContains (s ++ a) s := by
  show containsSub (s ++ a).data s.data = true
  rw [String.data_append]
  exact containsSub_self_append _ _

theorem strContains_appendL (a : String) {s sub : String} (h : StrContains s sub) :
    StrContains (a ++ s) sub := by
  show containsSub (a ++ s).data sub.data = true
  rw [String.data_append]
  exact containsSub_append_left _ _ _ h

theorem strContains_appendR (a : String) {s sub : String} (h : StrContains s sub) :
    StrContains (s ++ a) sub := by
  show containsSub (s ++ a).data sub.data = true
  rw [String.data_append]
  exact containsSub_append_right _ _ _ h

theorem get_eq_fallback {language topic : String} (h : lookupBody language topic = none) :
    get_content_for_topic language topic = fallbackContent language topic := by
  unfold lookupBody at h
  unfold get_content_for_topic
  cases hl : List.lookup language LANGUAGE_CONTENT with
  | none => rfl
  | some spec =>
    rw [hl] at h
    simp only [Option.some_bind] at h
    simp only [h]

theorem get_eq_body {language topic body : String} (h : lookupBody language topic = some body) :
    get_content_for_topic language topic = body := by
  unfold lookupBody at h
  unfold get_content_for_topic
  cases hl : List.lookup language LANGUAGE_CONTENT with
  | none => rw [hl] at h; simp at h
  | some spec =>
    rw [hl] at h
    simp only [Option.some_bind] at h
    simp only [h]

theorem fallback_contains_marker (language topic : String) :
    StrContains (fallbackContent language topic) fallbackMarker := by
  unfold fallbackContent
  iterate 12 apply strContains_appendL
  apply strContains_appendR
  decide

theorem fallback_contains_language (language topic : String) :
    StrContains (fallbackContent language topic) language := by
  unfold fallbackContent
  iterate 9 apply strContains_appendL
  exact strContains_here _ _

theorem fallback_contains_title_language (language topic : String) :
    StrContains (fallbackContent language topic) (pyTitle language) := by
  unfold fallbackContent
  iterate 1 apply strContains_appendL
  exact strContains_here _ _

theorem fallback_contains_titled_topic (language topic : String) :
    StrContains (fallbackContent language topic) (pyTitle (replaceDash topic)) := by
  unfold fallbackContent
  iterate 3 apply strContains_appendL
  exact strContains_here _ _

theorem fallback_contains_spaced_topic (language topic : String) :
    StrContains (fallbackContent language topic) (replaceDash topic) := by
  unfold fallbackContent
  iterate 5 apply strContains_appendL
  exact strContains_here _ _
theorem splitOnChar_append_cons (sep : Char) (a b : List Char) (h : sep ∉ a) :
    splitOnChar sep (a ++ sep :: b) = a :: splitOnChar sep b := by
  induction a with
  | nil => simp [splitOnChar]
  | cons c a ih =>
    have hc : ¬ c = sep := fun e => h (e ▸ List.mem_cons_self c a)
    have ha : sep ∉ a := fun m => h (List.mem_cons_of_mem _ m)
    show splitOnChar sep (c :: (a ++ sep :: b)) = (c :: a) :: splitOnChar sep b
    have step : splitOnChar sep (c :: (a ++ sep :: b)) =
        (c :: (splitOnChar sep (a ++ sep :: b)).headI) ::
          (splitOnChar sep (a ++ sep :: b)).tail := by
      simp [splitOnChar, if_neg hc]
    rw [step, ih ha]
    rfl

theorem data_dot : ".".data = ['.'] := rfl

theorem data_dotmd : ".md".data = ['.', 'm', 'd'] := rfl

theorem filename_split (d l t : String) (hd : '.' ∉ d.data) (hl : '.' ∉ l.data)
    (ht : '.' ∉ t.data) :
    splitOnChar '.' (makeFile d l t).1.data = [d.data, l.data, t.data, "md".data] := by
  show splitOnChar '.' (d ++ "." ++ l ++ "." ++ t ++ ".md").data = _
  simp only [String.data_append, data_dot, data_dotmd, List.append_assoc,
    List.singleton_append, List.cons_append, List.nil_append]
  rw [splitOnChar_append_cons _ _ _ hd, splitOnChar_append_cons _ _ _ hl,
    splitOnChar_append_cons _ _ _ ht]
  rfl

theorem dev_no_dot : ∀ d ∈ DEVELOPERS, '.' ∉ d.data := by decide

theorem lang_no_dot : ∀ l ∈ languageKeys, '.' ∉ l.data := by decide

theorem topic_no_dot : ∀ l ∈ languageKeys, ∀ t ∈ topicsOf l, '.' ∉ t.data := by decide

theorem string_data_injective : Function.Injective String.data := by
  intro a b h
  cases a
  cases b
  exact congrArg String.mk h

theorem create_files_length (devs : List String) (picks : List (String × String))
    (h : picks.length = devs.length) :
    (create_files_for_directory devs picks).length = devs.length := by
  unfold create_files_for_directory
  rw [List.length_map, List.length_zip, h, Nat.min_self]

theorem char_ofNat_toNat_lt (m : Nat) (h : m < 55296) : (Char.ofNat m).toNat = m := by
  unfold Char.ofNat
  rw [dif_pos (Or.inl h)]
  rfl

theorem toUpper_ne_newline {c : Char} (h : c ≠ '\n') : c.toUpper ≠ '\n' := by
  by_cases hc : c.toNat ≥ 97 ∧ c.toNat ≤ 122
  · simp only [Char.toUpper, if_pos hc]
    intro he
    have h1 := char_ofNat_toNat_lt (c.toNat - 32) (by omega)
    rw [he] at h1
    have h2 : Char.toNat '\n' = 10 := rfl
    omega
  · simp only [Char.toUpper, if_neg hc]
    exact h

theorem toLower_ne_newline {c : Char} (h : c ≠ '\n') : c.toLower ≠ '\n' := by
  by_cases hc : c.toNat ≥ 65 ∧ c.toNat ≤ 90
  · simp only [Char.toLower, if_pos hc]
    intro he
    have h1 := char_ofNat_toNat_lt (c.toNat + 32) (by omega)
    rw [he] at h1
    have h2 : Char.toNat '\n' = 10 := rfl
    omega
  · simp only [Char.toLower, if_neg hc]
    exact h

theorem pyTitleAux_no_newline : ∀ (l : List Char) (b : Bool), '\n' ∉ l →
    '\n' ∉ pyTitleAux l b := by
  intro l
  induction l with
  | nil => intro b _; simp [pyTitleAux]
  | cons c rest ih =>
    intro b h
    simp only [List.mem_cons, not_or] at h
    simp only [pyTitleAux, List.mem_cons, not_or]
    refine ⟨?_, ih c.isAlpha h.2⟩
    have hc : c ≠ '\n' := fun e => h.1 e.symm
    cases b with
    | true => exact fun e => toLower_ne_newline hc e.symm
    | false => exact fun e => toUpper_ne_newline hc e.symm

theorem pyTitle_no_newline {s : String} (h : '\n' ∉ s.data) : '\n' ∉ (pyTitle s).data :=
  pyTitleAux_no_newline s.data false h

theorem replaceDash_no_newline {s : String} (h : '\n' ∉ s.data) :
    '\n' ∉ (replaceDash s).data := by
  simp only [replaceDash, List.mem_map]
  rintro ⟨a, ha, he⟩
  by_cases hd : a = '-'
  · rw [if_pos hd] at he
    exact absurd he (by decide)
  · rw [if_neg hd] at he
    exact h (he ▸ ha)

theorem char_not_mem_append {c : Char} {a b : List Char} (ha : c ∉ a) (hb : c ∉ b) :
    c ∉ a ++ b := fun h => (List.mem_append.mp h).elim ha hb

theorem char_not_mem_cons {c d : Char} {l : List Char} (h1 : ¬ c = d) (h2 : c ∉ l) :
    c ∉ d :: l := fun h => (List.mem_cons.mp h).elim h1 h2
/-- The tail of `fbChunk4` after its first two characters (used to name the
remainder of the fallback document past its fourth line). -/
def fbChunk4Tail : String := "\n## Key Principles\n1. Write clean, readable code\n2. Follow established conventions\n3. Test your code thoroughly\n4. Document important decisions\n5. Keep learning and improving\n\n## Best Practices\n- Follow the community standards for "

theorem fbChunk0_recut : fbChunk0.data = ['#', ' '] := rfl

theorem fbChunk1_recut : fbChunk1.data = [' '] := rfl

theorem fbChunk2_recut : fbChunk2.data =
    " Guidelines".data ++ '\n' :: '\n' :: ("## Overview".data ++ '\n' ::
      "This document contains best practices and guidelines for ".data) := by decide

theorem fbChunk4_recut : fbChunk4.data = '.' :: '\n' :: fbChunk4Tail.data := by decide

/-- The fallback document's character data, recut at its first four line
breaks: the heading line, an empty line, the `## Overview` line, the
overview sentence, and the remainder. -/
theorem fallback_data_lines (language topic : String) :
    (fallbackContent language topic).data =
      ('#' :: ' ' :: ((pyTitle language).data ++ ' ' ::
          ((pyTitle (replaceDash topic)).data ++ " Guidelines".data)))
      ++ '\n' :: ([] ++ '\n' :: ("## Overview".data ++ '\n' ::
        (("This document contains best practices and guidelines for ".data ++
            ((replaceDash topic).data ++ (fbChunk3.data ++
              ((pyTitle language).data ++ ['.']))))
        ++ '\n' :: (fbChunk4Tail.data ++ (language.data ++ (fbChunk5.data ++
            (language.data ++ (fbChunk6.data ++ (language.data ++
              (fbChunk7.data ++ (topic.data ++ fbChunk8.data))))))))))) := by
  simp only [fallbackContent, String.data_append, fbChunk0_recut, fbChunk1_recut,
    fbChunk2_recut, fbChunk4_recut, List.append_assoc, List.cons_append,
    List.nil_append, List.singleton_append]

/-- Splitting the fallback document on line breaks begins with the heading
line, an empty line, `## Overview` and the overview sentence, provided the
language and topic contain no newline. -/
theorem fallback_split_lines (language topic : String)
    (hl : '\n' ∉ language.data) (ht : '\n' ∉ topic.data) :
    splitOnChar '\n' (fallbackContent language topic).data =
      ('#' :: ' ' :: ((pyTitle language).data ++ ' ' ::
          ((pyTitle (replaceDash topic)).data ++ " Guidelines".data)))
      :: [] :: "## Overview".data ::
      ("This document contains best practices and guidelines for ".data ++
          ((replaceDash topic).data ++ (fbChunk3.data ++
            ((pyTitle language).data ++ ['.']))))
      :: splitOnChar '\n' (fbChunk4Tail.data ++ (language.data ++ (fbChunk5.data ++
          (language.data ++ (fbChunk6.data ++ (language.data ++
            (fbChunk7.data ++ (topic.data ++ fbChunk8.data)))))))) := by
  have hTl : '\n' ∉ (pyTitle language).data := pyTitle_no_newline hl
  have hts : '\n' ∉ (replaceDash topic).data := replaceDash_no_newline ht
  have hTt : '\n' ∉ (pyTitle (replaceDash topic)).data :=
    pyTitle_no_newline hts
  have hL0 : '\n' ∉ ('#' :: ' ' :: ((pyTitle language).data ++ ' ' ::
      ((pyTitle (replaceDash topic)).data ++ " Guidelines".data))) := by
    apply char_not_mem_cons (by decide)
    apply char_not_mem_cons (by decide)
    apply char_not_mem_append hTl
    apply char_not_mem_cons (by decide)
    exact char_not_mem_append hTt (by decide)
  have hL3 : '\n' ∉ ("This document contains best practices and guidelines for ".data ++
      ((replaceDash topic).data ++ (fbChunk3.data ++
        ((pyTitle language).data ++ ['.'])))) := by
    apply char_not_mem_append (by decide)
    apply char_not_mem_append hts
    apply char_not_mem_append (by decide)
    exact char_not_mem_append hTl (by decide)
  rw [fallback_data_lines]
  rw [splitOnChar_append_cons _ _ _ hL0]
  rw [splitOnChar_append_cons _ _ _ (by simp)]
  rw [splitOnChar_append_cons _ _ _ (by decide)]
  rw [splitOnChar_append_cons _ _ _ hL3]
/-- C1: for every language string and topic string, `get_content_for_topic`
returns a string and never fails: a catalogued pair yields its body, and a
pair absent from the catalog (unknown language, or topic absent from the
language's content mapping) yields the fallback template instead of an
error. -/
theorem get_content_never_fails (language topic : String) :
    (lookupBody language topic = none →
      get_content_for_topic language topic = fallbackContent language topic) ∧
    (∀ body, lookupBody language topic = some body →
      get_content_for_topic language topic = body) :=
  ⟨fun h => get_eq_fallback h, fun _ h => get_eq_body h⟩

/-- Witness for C1 at a pair whose language is absent from the catalog. -/
theorem get_content_never_fails_witness :
    lookupBody "klingon" "warp-style" = none ∧
    get_content_for_topic "klingon" "warp-style" =
      fallbackContent "klingon" "warp-style" :=
  ⟨rfl, (get_content_never_fails "klingon" "warp-style").1 rfl⟩

/-- C2: every (language, topic) pair with an entry in the catalog's content
mapping maps under `get_content_for_topic` to exactly its literal
catalogued body, no catalogued body contains the fallback placeholder
marker, and `get_content_for_topic "golang" "code-styling"` starts with
`# Golang Code Styling Guidelines`. -/
theorem catalogued_pairs_exact :
    (∀ language spec, (language, spec) ∈ LANGUAGE_CONTENT →
      ∀ topic body, (topic, body) ∈ spec.content →
        get_content_for_topic language topic = body ∧
        ¬ StrContains body fallbackMarker) ∧
    startsWithL (get_content_for_topic "golang" "code-styling").data
      "# Golang Code Styling Guidelines".data = true := by
  constructor
  · intro language spec hmem topic body htb
    simp only [LANGUAGE_CONTENT, List.mem_cons, List.not_mem_nil, or_false,
      Prod.mk.injEq] at hmem
    rcases hmem with ⟨rfl, rfl⟩ | ⟨rfl, rfl⟩ | ⟨rfl, rfl⟩ | ⟨rfl, rfl⟩
    · simp only [golangSpec, List.mem_cons, List.not_mem_nil, or_false,
        Prod.mk.injEq] at htb
      rcases htb with ⟨rfl, rfl⟩ | ⟨rfl, rfl⟩ | ⟨rfl, rfl⟩ | ⟨rfl, rfl⟩ | ⟨rfl, rfl⟩ <;>
        exact ⟨rfl, by decide⟩
    · simp only [pythonSpec, List.mem_cons, List.not_mem_nil, or_false,
        Prod.mk.injEq] at htb
      rcases htb with ⟨rfl, rfl⟩ | ⟨rfl, rfl⟩ | ⟨rfl, rfl⟩ | ⟨rfl, rfl⟩ | ⟨rfl, rfl⟩ <;>
        exact ⟨rfl, by decide⟩
    · simp only [javascriptSpec, List.mem_cons, List.not_mem_nil, or_false,
        Prod.mk.injEq] at htb
      rcases htb with ⟨rfl, rfl⟩ | ⟨rfl, rfl⟩ <;> exact ⟨rfl, by decide⟩
    · simp only [reactSpec, List.mem_cons, List.not_mem_nil, or_false,
        Prod.mk.injEq] at htb
      rcases htb with ⟨rfl, rfl⟩ | ⟨rfl, rfl⟩ <;> exact ⟨rfl, by decide⟩
  · decide

/-- Witness for C2 at the golang code-styling entry. -/
theorem catalogued_pairs_exact_witness :
    ("golang", golangSpec) ∈ LANGUAGE_CONTENT ∧
    ("code-styling", body_golang_code_styling) ∈ golangSpec.content ∧
    (get_content_for_topic "golang" "code-styling" = body_golang_code_styling ∧
      ¬ StrContains body_golang_code_styling fallbackMarker) :=
  ⟨by simp [LANGUAGE_CONTENT], by simp [golangSpec],
    catalogued_pairs_exact.1 "golang" golangSpec (by simp [LANGUAGE_CONTENT])
      "code-styling" body_golang_code_styling (by simp [golangSpec])⟩

/-- C3: for every pair not catalogued, the returned fallback contains the
language name (both verbatim and title-cased), the topic with dashes
replaced by spaces and title-cased, and the placeholder marker. -/
theorem fallback_mentions_language_and_topic (language topic : String)
    (h : lookupBody language topic = none) :
    StrContains (get_content_for_topic language topic) language ∧
    StrContains (get_content_for_topic language topic) (pyTitle language) ∧
    StrContains (get_content_for_topic language topic)
      (pyTitle (replaceDash topic)) ∧
    StrContains (get_content_for_topic language topic) fallbackMarker := by
  rw [get_eq_fallback h]
  exact ⟨fallback_contains_language language topic,
    fallback_contains_title_language language topic,
    fallback_contains_titled_topic language topic,
    fallback_contains_marker language topic⟩

/-- Witness for C3: the spec's scenario at ("golang", "nonexistent-topic"). -/
theorem fallback_mentions_language_and_topic_witness :
    lookupBody "golang" "nonexistent-topic" = none ∧
    StrContains (get_content_for_topic "golang" "nonexistent-topic") "Golang" ∧
    StrContains (get_content_for_topic "golang" "nonexistent-topic")
      "Nonexistent Topic" ∧
    StrContains (get_content_for_topic "golang" "nonexistent-topic")
      "template document" :=
  ⟨rfl,
    (fallback_mentions_language_and_topic "golang" "nonexistent-topic" rfl).2.1,
    (fallback_mentions_language_and_topic "golang" "nonexistent-topic" rfl).2.2.1,
    (fallback_mentions_language_and_topic "golang" "nonexistent-topic" rfl).2.2.2⟩

/-- C4 counterexample: at the uncatalogued pair ("golang",
"nonexistent-topic") every line of the generated body that contains the
title-cased topic "Nonexistent Topic" is a heading line (starts with '#'):
the title-cased form occurs in no non-heading explanatory sentence, contrary
to the claim; only the lowercase space-separated form does. -/
theorem titled_topic_absent_from_nonheading_lines :
    lookupBody "golang" "nonexistent-topic" = none ∧
    ((splitOnChar '\n'
        (get_content_for_topic "golang" "nonexistent-topic").data).all
      fun ln => ln.head? == some '#' ||
        ! containsSub ln "Nonexistent Topic".data) = true :=
  ⟨rfl, by decide⟩

/-- C4 (amended): for every uncatalogued pair whose language and topic
contain no newline, the fallback body embeds the title-cased
space-separated topic inside a heading line, embeds the space-separated
(lowercase, not title-cased) topic inside a non-heading explanatory
sentence, and visibly marks itself as a template via the placeholder
marker. -/
theorem fallback_heading_and_sentence (language topic : String)
    (h : lookupBody language topic = none)
    (hl : '\n' ∉ language.data) (ht : '\n' ∉ topic.data) :
    (∃ ln ∈ splitOnChar '\n' (get_content_for_topic language topic).data,
      ln.head? = some '#' ∧
        containsSub ln (pyTitle (replaceDash topic)).data = true) ∧
    (∃ ln ∈ splitOnChar '\n' (get_content_for_topic language topic).data,
      ln.head? ≠ some '#' ∧
        containsSub ln (replaceDash topic).data = true) ∧
    StrContains (get_content_for_topic language topic) fallbackMarker := by
  rw [get_eq_fallback h]
  refine ⟨?_, ?_, fallback_contains_marker language topic⟩
  · rw [fallback_split_lines language topic hl ht]
    refine ⟨_, List.mem_cons_self _ _, rfl, ?_⟩
    exact containsSub_append_left ['#', ' '] _ _
      (containsSub_append_left (pyTitle language).data _ _
        (containsSub_append_left [' '] _ _ (containsSub_self_append _ _)))
  · rw [fallback_split_lines language topic hl ht]
    refine ⟨_, List.mem_cons_of_mem _ (List.mem_cons_of_mem _
      (List.mem_cons_of_mem _ (List.mem_cons_self _ _))), ?_, ?_⟩
    · have hh : ("This document contains best practices and guidelines for ".data ++
          ((replaceDash topic).data ++ (fbChunk3.data ++
            ((pyTitle language).data ++ ['.'])))).head? = some 'T' := rfl
      rw [hh]
      decide
    · exact containsSub_append_left _ _ _ (containsSub_self_append _ _)

/-- Witness for the amended C4 at ("golang", "nonexistent-topic"). -/
theorem fallback_heading_and_sentence_witness :
    (lookupBody "golang" "nonexistent-topic" = none ∧
      '\n' ∉ "golang".data ∧ '\n' ∉ "nonexistent-topic".data) ∧
    ((∃ ln ∈ splitOnChar '\n'
        (get_content_for_topic "golang" "nonexistent-topic").data,
      ln.head? = some '#' ∧
        containsSub ln (pyTitle (replaceDash "nonexistent-topic")).data = true) ∧
    (∃ ln ∈ splitOnChar '\n'
        (get_content_for_topic "golang" "nonexistent-topic").data,
      ln.head? ≠ some '#' ∧
        containsSub ln (replaceDash "nonexistent-topic").data = true) ∧
    StrContains (get_content_for_topic "golang" "nonexistent-topic")
      fallbackMarker) :=
  ⟨⟨rfl, by decide, by decide⟩,
    fallback_heading_and_sentence "golang" "nonexistent-topic" rfl
      (by decide) (by decide)⟩

/-- C5: in every valid run of `create_files_for_directory` the number of
files written lies in the inclusive range [3, 6] (the configured range
clamped to the 10-element developer pool), and the developer-name
components of the written filenames are pairwise distinct. -/
theorem files_count_range_and_distinct_devs (num_files : Nat)
    (devs : List String) (picks : List (String × String))
    (h : ValidRun num_files devs picks) :
    (3 ≤ (create_files_for_directory devs picks).length ∧
      (create_files_for_directory devs picks).length ≤ 6) ∧
    ((create_files_for_directory devs picks).map
      (fun f => (splitOnChar '.' f.1.data).headI)).Nodup := by
  obtain ⟨h3, h6, hlen, hnd, hsub, hplen, hpick⟩ := h
  have h10 : DEVELOPERS.length = 10 := rfl
  rw [h10] at hlen
  have hflen := create_files_length devs picks hplen
  refine ⟨⟨by omega, by omega⟩, ?_⟩
  have e : ∀ p ∈ devs.zip picks,
      ((fun f : String × String => (splitOnChar '.' f.1.data).headI) ∘
        fun p : String × (String × String) => makeFile p.1 p.2.1 p.2.2) p =
      (String.data ∘ Prod.fst) p := by
    rintro ⟨d, l, t⟩ hp
    have hm := List.of_mem_zip hp
    obtain ⟨hlK, htT⟩ := hpick _ hm.2
    simp only [Function.comp_apply]
    rw [filename_split d l t (dev_no_dot d (hsub d hm.1)) (lang_no_dot l hlK)
      (topic_no_dot l hlK t htT)]
    rfl
  have key : (create_files_for_directory devs picks).map
      (fun f => (splitOnChar '.' f.1.data).headI) = devs.map String.data := by
    unfold create_files_for_directory
    rw [List.map_map, List.map_congr_left e, ← List.map_map,
      List.map_fst_zip devs picks (by omega)]
  rw [key]
  exact hnd.map string_data_injective

/-- Witness for C5 at a concrete valid run of three developers. -/
theorem files_count_range_and_distinct_devs_witness :
    ValidRun 3 witnessDevs witnessPicks ∧
    ((3 ≤ (create_files_for_directory witnessDevs witnessPicks).length ∧
      (create_files_for_directory witnessDevs witnessPicks).length ≤ 6) ∧
    ((create_files_for_directory witnessDevs witnessPicks).map
      (fun f => (splitOnChar '.' f.1.data).headI)).Nodup) :=
  ⟨by decide,
    files_count_range_and_distinct_devs 3 witnessDevs witnessPicks (by decide)⟩

/-- C6: for every file of a valid run, splitting its filename on '.' yields
exactly the four components (developer, language, topic, "md") used to
generate it. -/
theorem filename_splits_into_components (num_files : Nat) (devs : List String)
    (picks : List (String × String)) (h : ValidRun num_files devs picks)
    (d l t : String) (hmem : (d, (l, t)) ∈ devs.zip picks) :
    splitOnChar '.' (makeFile d l t).1.data =
      [d.data, l.data, t.data, "md".data] := by
  obtain ⟨-, -, -, -, hsub, -, hpick⟩ := h
  have hm := List.of_mem_zip hmem
  obtain ⟨hlK, htT⟩ := hpick _ hm.2
  exact filename_split d l t (dev_no_dot d (hsub d hm.1)) (lang_no_dot l hlK)
    (topic_no_dot l hlK t htT)

/-- Witness for C6 at a concrete run and file. -/
theorem filename_splits_into_components_witness :
    (ValidRun 3 witnessDevs witnessPicks ∧
      ("ghonDou", ("golang", "testing")) ∈ witnessDevs.zip witnessPicks) ∧
    splitOnChar '.' (makeFile "ghonDou" "golang" "testing").1.data =
      ["ghonDou".data, "golang".data, "testing".data, "md".data] :=
  ⟨⟨by decide, by decide⟩,
    filename_splits_into_components 3 witnessDevs witnessPicks (by decide)
      "ghonDou" "golang" "testing" (by decide)⟩

/-- C7: looking up the declared topic sequence fails with UnknownLanguage
(and surfaces it, rather than swallowing it) exactly when the language
label is absent from the catalog; a present label yields its declared
ordered topic sequence. -/
theorem list_topics_unknown_language (language : String) :
    (List.lookup language LANGUAGE_CONTENT = none →
      listTopics language = Except.error CatalogError.UnknownLanguage) ∧
    (∀ spec, List.lookup language LANGUAGE_CONTENT = some spec →
      listTopics language = Except.ok spec.topics) := by
  constructor
  · intro h
    unfold listTopics
    rw [h]
  · intro spec h
    unfold listTopics
    rw [h]

/-- Witness for C7: an absent label errors, a present label succeeds. -/
theorem list_topics_unknown_language_witness :
    (List.lookup "cobol" LANGUAGE_CONTENT = none ∧
      listTopics "cobol" = Except.error CatalogError.UnknownLanguage) ∧
    (List.lookup "golang" LANGUAGE_CONTENT = some golangSpec ∧
      listTopics "golang" = Except.ok golangSpec.topics) :=
  ⟨⟨rfl, (list_topics_unknown_language "cobol").1 rfl⟩,
    ⟨rfl, (list_topics_unknown_language "golang").2 golangSpec rfl⟩⟩

/-- C8: the content generator is a pure, deterministic function of
(language, topic): two invocations with identical arguments return equal
strings. -/
theorem get_content_deterministic (language1 topic1 language2 topic2 : String)
    (hl : language1 = language2) (ht : topic1 = topic2) :
    get_content_for_topic language1 topic1 =
      get_content_for_topic language2 topic2 := by
  rw [hl, ht]

/-- Witness for C8 at identical concrete invocations. -/
theorem get_content_deterministic_witness :
    get_content_for_topic "golang" "code-styling" =
      get_content_for_topic "golang" "code-styling" :=
  get_content_deterministic "golang" "code-styling" "golang" "code-styling"
    rfl rfl

/-- C9: the shipped catalog is incomplete: each of the six listed
(language, topic) pairs is declared in its language's topic list yet has no
content entry, so `get_content_for_topic` returns the generated fallback
template (which carries the placeholder marker), and every file written for
such a pair carries the template body. -/
theorem uncatalogued_topics_use_fallback :
    ("async" ∈ topicsOf "javascript" ∧
      lookupBody "javascript" "async" = none ∧
      get_content_for_topic "javascript" "async" =
        fallbackContent "javascript" "async" ∧
      StrContains (get_content_for_topic "javascript" "async") fallbackMarker ∧
      ∀ d : String, (makeFile d "javascript" "async").2 =
        fallbackContent "javascript" "async") ∧
    ("modules" ∈ topicsOf "javascript" ∧
      lookupBody "javascript" "modules" = none ∧
      get_content_for_topic "javascript" "modules" =
        fallbackContent "javascript" "modules" ∧
      StrContains (get_content_for_topic "javascript" "modules") fallbackMarker ∧
      ∀ d : String, (makeFile d "javascript" "modules").2 =
        fallbackContent "javascript" "modules") ∧
    ("performance" ∈ topicsOf "javascript" ∧
      lookupBody "javascript" "performance" = none ∧
      get_content_for_topic "javascript" "performance" =
        fallbackContent "javascript" "performance" ∧
      StrContains (get_content_for_topic "javascript" "performance")
        fallbackMarker ∧
      ∀ d : String, (makeFile d "javascript" "performance").2 =
        fallbackContent "javascript" "performance") ∧
    ("state-management" ∈ topicsOf "react" ∧
      lookupBody "react" "state-management" = none ∧
      get_content_for_topic "react" "state-management" =
        fallbackContent "react" "state-management" ∧
      StrContains (get_content_for_topic "react" "state-management")
        fallbackMarker ∧
      ∀ d : String, (makeFile d "react" "state-management").2 =
        fallbackContent "react" "state-management") ∧
    ("performance" ∈ topicsOf "react" ∧
      lookupBody "react" "performance" = none ∧
      get_content_for_topic "react" "performance" =
        fallbackContent "react" "performance" ∧
      StrContains (get_content_for_topic "react" "performance")
        fallbackMarker ∧
      ∀ d : String, (makeFile d "react" "performance").2 =
        fallbackContent "react" "performance") ∧
    ("testing" ∈ topicsOf "react" ∧
      lookupBody "react" "testing" = none ∧
      get_content_for_topic "react" "testing" =
        fallbackContent "react" "testing" ∧
      StrContains (get_content_for_topic "react" "testing") fallbackMarker ∧
      ∀ d : String, (makeFile d "react" "testing").2 =
        fallbackContent "react" "testing") :=
  ⟨⟨by decide, rfl, rfl, by decide, fun _ => rfl⟩,
    ⟨by decide, rfl, rfl, by decide, fun _ => rfl⟩,
    ⟨by decide, rfl, rfl, by decide, fun _ => rfl⟩,
    ⟨by decide, rfl, rfl, by decide, fun _ => rfl⟩,
    ⟨by decide, rfl, rfl, by decide, fun _ => rfl⟩,
    ⟨by decide, rfl, rfl, by decide, fun _ => rfl⟩⟩

/-- C10: for every file of a valid run, the language component of its
filename is one of the four catalog keys and the topic component belongs to
that language's declared topic list. -/
theorem files_within_catalog (num_files : Nat) (devs : List String)
    (picks : List (String × String)) (h : ValidRun num_files devs picks)
    (d l t : String) (hmem : (d, (l, t)) ∈ devs.zip picks) :
    (splitOnChar '.' (makeFile d l t).1.data)[1]? = some l.data ∧
    (splitOnChar '.' (makeFile d l t).1.data)[2]? = some t.data ∧
    l ∈ ["golang", "python", "javascript", "react"] ∧
    t ∈ topicsOf l := by
  obtain ⟨-, -, -, -, hsub, -, hpick⟩ := h
  have hm := List.of_mem_zip hmem
  obtain ⟨hlK, htT⟩ := hpick _ hm.2
  have hsplit := filename_split d l t (dev_no_dot d (hsub d hm.1))
    (lang_no_dot l hlK) (topic_no_dot l hlK t htT)
  rw [hsplit]
  exact ⟨rfl, rfl, hlK, htT⟩

/-- Witness for C10 at a concrete run and file. -/
theorem files_within_catalog_witness :
    (ValidRun 3 witnessDevs witnessPicks ∧
      ("sarahLee", ("python", "async")) ∈ witnessDevs.zip witnessPicks) ∧
    ((splitOnChar '.' (makeFile "sarahLee" "python" "async").1.data)[1]? =
        some "python".data ∧
      (splitOnChar '.' (makeFile "sarahLee" "python" "async").1.data)[2]? =
        some "async".data ∧
      "python" ∈ ["golang", "python", "javascript", "react"] ∧
      "async" ∈ topicsOf "python") :=
  ⟨⟨by decide, by decide⟩,
    files_within_catalog 3 witnessDevs witnessPicks (by decide)
      "sarahLee" "python" "async" (by decide)⟩
